/-
Verification development for the certificate-generator batch pipeline
(src/app.py).  The per-row processing (`create_document`), the batch loop
(`create_documents`), dataset validation (`validate_data`), the template
upgrade converter (`convert_to_docx`) and archive assembly
(`create_zip_file`) are shallowly embedded as pure Lean functions.

Modelling conventions:
* A pandas cell is a `Value`: a string, an integer, or NaN (pandas loads an
  empty spreadsheet cell as the float NaN, which has no `.title()` method).
* A dataset row (`pd.Series`) is an association list from column name to
  `Value`; `rowGet` models `row.get(key, default)`.
* The on-disk working directory is an association list from path to file
  content (`FS`).  A side-effecting step returns the list of writes it
  performed; `applyWrites` folds them into the file system.
* The loaded `DocxTemplate` together with the external LibreOffice process
  is an `Env`: `render` maps a substitution context to rendered bytes (or a
  docxtpl render error), and `convertPdf` gives, for an input path and an
  output directory, the exit code, stderr, and the output file content the
  converter produced (`none` when the process created no file).
* A Python exception that escapes a modelled function is `Except.error`;
  a caught exception is an ordinary return value.  `PyErr.nameError`
  models the `NameError`/`UnboundLocalError` raised when the `except`
  handler of `create_document` evaluates the unbound local `nombre`, and
  `PyErr.zeroDiv` models `ZeroDivisionError` so that the per-row progress
  fraction `i / total_files` is a guarded (fallible) operation.
* `st.progress` calls are recorded as `Event`s (fraction shown, label).
-/
import Mathlib

set_option maxHeartbeats 1600000

namespace CertGen

/-- A scalar cell value of the tabular dataset (string / number / NaN). -/
inductive Value where
  | str (s : String)
  | num (n : Int)
  | nan
deriving Repr, DecidableEq

/-- Rendering of a `Value` used only by the concrete test fixtures below. -/
def valueStr : Value → String
  | Value.str s => s
  | Value.num n => toString n
  | Value.nan => "nan"

/-- One dataset row: a mapping from column name to cell value. -/
abbrev Row := List (String × Value)

/-- `row.get(key, default)` of a pandas Series. -/
def rowGet (row : Row) (key : String) (default : Value) : Value :=
  match row.find? (fun p => p.1 == key) with
  | some p => p.2
  | none => default

/-- Helper for `pyTitle`: the Boolean records whether the previous
character was alphabetic. -/
def pyTitleAux : Bool → List Char → List Char
  | _, [] => []
  | prevAlpha, c :: cs =>
    if c.isAlpha then
      (if prevAlpha then c.toLower else c.toUpper) :: pyTitleAux true cs
    else
      c :: pyTitleAux false cs

/-- Python `str.title()` (ASCII): each alphabetic character that follows a
non-alphabetic one is uppercased, every other alphabetic character is
lowercased. -/
def pyTitle (s : String) : String :=
  String.mk (pyTitleAux false s.data)

/-- Python `os.path.basename`: the component after the last slash. -/
def basename (p : String) : String :=
  (p.splitOn "/").getLastD p

/-- Python `os.path.splitext(s)[0]`: drop the extension after the last dot,
except when everything before that dot is dots (leading-dot files). -/
def stripExt (s : String) : String :=
  let parts := s.splitOn "."
  let stem := String.intercalate "." parts.dropLast
  if stem.all (fun c => c == '.') then s else stem

/-- The batch's working directory: a mapping from path to file content. -/
abbrev FS := List (String × String)

/-- Read a file; `none` when the path does not exist. -/
def fsRead (fs : FS) (p : String) : Option String :=
  (fs.find? (fun q => q.1 == p)).map (fun q => q.2)

/-- Write (or overwrite) a file. -/
def fsWrite (fs : FS) (p c : String) : FS :=
  (p, c) :: fs.filter (fun q => !(q.1 == p))

/-- Apply a list of writes in order. -/
def applyWrites (fs : FS) (ws : List (String × String)) : FS :=
  ws.foldl (fun f w => fsWrite f w.1 w.2) fs

/-- Result of one external LibreOffice invocation: exit code, stderr, and
the content of the output file it produced (`none` if it produced none). -/
structure ConvRes where
  returncode : Int
  stderr : String
  produced : Option String
deriving Repr, DecidableEq

/-- The loaded template handle plus the external converter process.
`render` models `doc.render(context)` followed by `doc.save` (the saved
bytes as a function of the substitution context, or a docxtpl error);
`convertPdf` models the `libreoffice --convert-to pdf` subprocess for an
input path and output directory. -/
structure Env where
  render : List (String × Value) → Except String String
  convertPdf : String → String → ConvRes

/-- A Python exception escaping a modelled function. -/
inductive PyErr where
  | nameError (var : String)
  | zeroDiv
deriving Repr, DecidableEq

/-- The per-row result dict of `create_document` (src/app.py lines 105,
107, 113): a success dict carries `file` and `nombre`; the conversion
error dict (line 105) carries only `message`; the caught-exception dict
(line 113) carries `message` and `nombre`. -/
inductive RowDict where
  | success (file : String) (nombre : String)
  | errorMsg (message : String)
  | errorExc (message : String) (nombre : String)
deriving Repr, DecidableEq

/-- `result["status"] == "success"`. -/
def isSuccess : RowDict → Bool
  | RowDict.success _ _ => true
  | _ => false

/-- One `st.progress` call: the fraction passed and the text label. -/
structure Event where
  value : ℚ
  label : String
deriving Repr, DecidableEq

/-- The substitution context built from one row (src/app.py lines 77-80):
the title-cased name and the `Cargo` cell passed through, defaulting to
the empty string. -/
def renderContext (row : Row) (nombre : String) : List (String × Value) :=
  [("nombre_completo", Value.str nombre), ("cargo", rowGet row "Cargo" (Value.str ""))]

/-- `create_document` (src/app.py lines 71-113).  Returns the row's result
dict (or the escaping exception) together with the writes performed on the
working directory.

* Line 76: `nombre = row.get("Nombre Completo", "").title()`.  When the
  cell value is not a string, `.title()` raises `AttributeError`; the
  `except` handler (line 113) then evaluates the unbound local `nombre`,
  so the handler itself raises `NameError` which escapes the function:
  modelled as `Except.error (PyErr.nameError "nombre")`.
* Lines 82-85: the rendered docx is saved at
  `output_dir/Certificado - <nombre>.docx`; a render error is caught by
  the handler (with `nombre` bound) and returned as an error dict.
* Lines 88-107: the converter subprocess runs; the file it produces (if
  any) lands at `output_dir/<input base name without extension>.pdf`.
  Only the exit code is checked: a zero exit returns a success dict with
  `pdf_path` without checking that the file exists. -/
def create_document (env : Env) (row : Row) (output_dir : String) :
    Except PyErr RowDict × List (String × String) :=
  match rowGet row "Nombre Completo" (Value.str "") with
  | Value.str s =>
    let nombre := pyTitle s
    let docx_path := output_dir ++ "/Certificado - " ++ nombre ++ ".docx"
    match env.render (renderContext row nombre) with
    | Except.error e => (Except.ok (RowDict.errorExc e nombre), [])
    | Except.ok rendered =>
      let pdf_path := output_dir ++ "/Certificado - " ++ nombre ++ ".pdf"
      let conv := env.convertPdf docx_path output_dir
      let convWrites :=
        match conv.produced with
        | some c => [(output_dir ++ "/" ++ stripExt (basename docx_path) ++ ".pdf", c)]
        | none => []
      let writes := (docx_path, rendered) :: convWrites
      if conv.returncode ≠ 0 then
        (Except.ok (RowDict.errorMsg ("Error al convertir " ++ nombre ++ " a PDF")), writes)
      else
        (Except.ok (RowDict.success pdf_path nombre), writes)
  | _ => (Except.error (PyErr.nameError "nombre"), [])

/-- `convert_to_docx` (src/app.py lines 34-68): the template-upgrade
converter.  `b` is the behaviour of the LibreOffice process on this
invocation.  A non-zero exit raises, and a zero exit with the expected
output file absent raises a distinct error; both are re-wrapped by the
function's own handler (line 68). -/
def convert_to_docx (b : ConvRes) (input_path output_dir : String) (fs : FS) :
    Except String (String × FS) :=
  let filename := basename input_path
  let name_without_ext := stripExt filename
  let output_path := output_dir ++ "/" ++ name_without_ext ++ ".docx"
  let fs1 :=
    match b.produced with
    | some c => fsWrite fs output_path c
    | none => fs
  if b.returncode ≠ 0 then
    Except.error ("Error en la conversión del formato: Error al convertir el archivo: " ++ b.stderr)
  else if (fsRead fs1 output_path).isNone then
    Except.error "Error en la conversión del formato: El archivo convertido no se creó correctamente"
  else
    Except.ok (output_path, fs1)

/-- The per-row progress fraction `(i) / total_files` (src/app.py line
127), guarded: a zero denominator is Python's `ZeroDivisionError`. -/
def progressFrac (i total : Nat) : Except PyErr ℚ :=
  if total = 0 then Except.error PyErr.zeroDiv else Except.ok ((i : ℚ) / (total : ℚ))

/-- The progress event emitted before row `i` of a batch of `total`. -/
def rowEvent (total i : Nat) : Event :=
  ⟨(i : ℚ) / (total : ℚ), "Generando certificado " ++ toString (i + 1) ++ " de " ++ toString total⟩

/-- The final `progress_bar.progress(1.0, ...)` call (src/app.py line 138). -/
def finalEvent : Event :=
  ⟨1, "¡Proceso completado!"⟩

/-- The per-row loop of `create_documents` (src/app.py lines 124-138):
emit the progress event, run `create_document`, collect the result dict,
recurse.  An exception escaping a row aborts the loop (the events emitted
so far stand, no result list is produced). -/
def batchLoop (env : Env) (output_dir : String) (total : Nat) :
    Nat → List Row → FS → List Event × Except PyErr (List RowDict × FS)
  | _, [], fs => ([finalEvent], Except.ok ([], fs))
  | i, row :: rest, fs =>
    match progressFrac i total with
    | Except.error e => ([], Except.error e)
    | Except.ok q =>
      let ev : Event :=
        ⟨q, "Generando certificado " ++ toString (i + 1) ++ " de " ++ toString total⟩
      let cd := create_document env row output_dir
      match cd.1 with
      | Except.error e => ([ev], Except.error e)
      | Except.ok res =>
        let next := batchLoop env output_dir total (i + 1) rest (applyWrites fs cd.2)
        match next.2 with
        | Except.error e => (ev :: next.1, Except.error e)
        | Except.ok (results, fsOut) => (ev :: next.1, Except.ok (res :: results, fsOut))

/-- `create_documents` (src/app.py lines 116-140): iterate all rows in
input order with the shared template handle, returning the emitted
progress events and (unless a row's exception escaped) the ordered result
dicts plus the final state of the working directory.  `data.iterrows()`
indices are positional here because `main` always loads a fresh
`DataFrame` (default RangeIndex). -/
def create_documents (env : Env) (rows : List Row) (output_dir : String) (fs : FS) :
    List Event × Except PyErr (List RowDict × FS) :=
  batchLoop env output_dir rows.length 0 rows fs

/-- The full progress trace of a batch of `total` rows that runs to
completion: one event per row, then the completion event. -/
def eventTrace (total : Nat) : List Event :=
  (List.range total).map (rowEvent total) ++ [finalEvent]

/-- `[r["file"] for r in results if r["status"] == "success"]`
(src/app.py line 145). -/
def successFiles (results : List RowDict) : List String :=
  results.filterMap (fun r =>
    match r with
    | RowDict.success f _ => some f
    | _ => none)

/-- The `zipf.write(file_path, arcname=file_name)` loop (src/app.py lines
153-156): read each file and store it under its base name; a missing file
is `FileNotFoundError`, modelled as `Except.error`. -/
def buildZipEntries : List String → FS → Except Unit (List (String × String))
  | [], _ => Except.ok []
  | p :: ps, fs =>
    match fsRead fs p with
    | none => Except.error ()
    | some c => (buildZipEntries ps fs).map (fun es => (basename p, c) :: es)

/-- `create_zip_file` (src/app.py lines 143-162): `none` when no row
succeeded; otherwise the archive path and its entries
(`arcname ↦ content`).  Any exception while writing the archive is caught
and also yields `none` (line 162). -/
def create_zip_file (results : List RowDict) (output_dir : String) (fs : FS) :
    Option String × List (String × String) :=
  let successful_files := successFiles results
  if successful_files.isEmpty then (none, [])
  else
    match buildZipEntries successful_files fs with
    | Except.ok entries => (some (output_dir ++ "/Certificados.zip"), entries)
    | Except.error _ => (none, [])

/-- The loaded tabular dataset: its column names and its rows. -/
structure DataFrame where
  columns : List String
  rows : List Row
deriving Repr, DecidableEq

/-- `validate_data` (src/app.py lines 21-31): the Boolean verdict together
with the `st.error` messages emitted (one single message listing the
missing required columns, or none). -/
def validate_data (data : DataFrame) : Bool × List String :=
  let required_columns := ["Nombre Completo"]
  let missing_columns := required_columns.filter (fun col => !(data.columns.contains col))
  if missing_columns.isEmpty then (true, [])
  else
    (false,
     ["Faltan las siguientes columnas requeridas: " ++ String.intercalate ", " missing_columns])

/-- Outcome of the generation flow in `main` (src/app.py lines 243-285). -/
inductive RunResult where
  | validationFailure (messages : List String)
  | unexpected (e : PyErr) (events : List Event)
  | done (events : List Event) (results : List RowDict)
      (zipped : Option String × List (String × String))
deriving Repr

/-- The generation flow of `main` after the dataset is loaded (src/app.py
lines 243-285): validate the dataset (stopping before any row on
failure), run the batch, and assemble the archive when at least one row
succeeded.  An exception escaping the batch is caught by the outer
handler (line 287). -/
def run_generation (env : Env) (data : DataFrame) (temp_dir : String) (fs : FS) : RunResult :=
  match validate_data data with
  | (false, msgs) => RunResult.validationFailure msgs
  | (true, _) =>
    match create_documents env data.rows temp_dir fs with
    | (events, Except.error e) => RunResult.unexpected e events
    | (events, Except.ok (results, fs')) =>
      let successful := (results.filter isSuccess).length
      if successful > 0 then RunResult.done events results (create_zip_file results temp_dir fs')
      else RunResult.done events results (none, [])

/-- Concrete template/converter behaviour used by the concrete theorems:
rendering succeeds with bytes determined by the substitution context, and
the converter exits zero and produces an output file. -/
def envOk : Env :=
  { render := fun ctx =>
      Except.ok ("R(" ++ String.intercalate "," (ctx.map (fun p => p.1 ++ "=" ++ valueStr p.2)) ++ ")")
    convertPdf := fun input _ => ⟨0, "", some ("P(" ++ input ++ ")")⟩ }

/-- Converter behaviour that exits zero but silently produces no output
file (rendering succeeds with fixed bytes). -/
def envSilent : Env :=
  { render := fun _ => Except.ok "D"
    convertPdf := fun _ _ => ⟨0, "", none⟩ }

/-- Row 1 of the spec's worked example. -/
def rowAna : Row := [("Nombre Completo", Value.str "ana lopez"), ("Cargo", Value.str "Speaker")]

/-- Row 2 of the spec's worked example: the empty `full_name` cell, which
pandas loads as NaN. -/
def rowHostNan : Row := [("Nombre Completo", Value.nan), ("Cargo", Value.str "Host")]

/-- A row whose name cell is a number (a valid scalar per the data model). -/
def rowNum : Row := [("Nombre Completo", Value.num 7)]

/-- Small single-column rows for the batch-level theorems. -/
def rowB : Row := [("Nombre Completo", Value.str "b")]

/-- See `rowB`. -/
def rowC : Row := [("Nombre Completo", Value.str "c")]

/-- See `rowB`. -/
def rowD : Row := [("Nombre Completo", Value.str "d")]

/-- See `rowB`. -/
def rowBob : Row := [("Nombre Completo", Value.str "bob")]

/-- A row whose name cell is NaN (an empty spreadsheet cell). -/
def rowBad4 : Row := [("Nombre Completo", Value.nan)]

/-- A row whose name cell is the number 9. -/
def rowBad5 : Row := [("Nombre Completo", Value.num 9)]

/-- A row whose name cell is the number 3. -/
def rowBad3 : Row := [("Nombre Completo", Value.num 3)]

deriving instance DecidableEq for Except

/-- A batch that returns its result list normally has one result dict per
input row, and the dict at every position `k` is exactly what
`create_document` returns on input row `k`. -/
theorem batchLoop_ok_spec (env : Env) (dir : String) (total : Nat) :
    ∀ (rows : List Row) (i : Nat) (fs : FS) (results : List RowDict) (fsOut : FS),
      (batchLoop env dir total i rows fs).2 = Except.ok (results, fsOut) →
      results.length = rows.length ∧
      ∀ k, results.get? k =
        (rows.get? k).bind (fun row => ((create_document env row dir).1).toOption) := by
  intro rows
  induction rows with
  | nil =>
    intro i fs results fsOut h
    simp [batchLoop] at h
    obtain ⟨rfl, rfl⟩ := h
    exact ⟨rfl, fun k => by simp⟩
  | cons row rest ih =>
    intro i fs results fsOut h
    by_cases ht : total = 0
    · simp [batchLoop, progressFrac, ht] at h
    · rcases hcd : (create_document env row dir).1 with e | res
      · simp [batchLoop, progressFrac, ht, hcd] at h
      · rcases hrec :
          (batchLoop env dir total (i + 1) rest
            (applyWrites fs (create_document env row dir).2)).2 with e | p
        · simp [batchLoop, progressFrac, ht, hcd, hrec] at h
        · obtain ⟨rs, fsO⟩ := p
          simp [batchLoop, progressFrac, ht, hcd, hrec] at h
          obtain ⟨rfl, rfl⟩ := h
          obtain ⟨ihlen, ihget⟩ :=
            ih (i + 1) (applyWrites fs (create_document env row dir).2) rs fsO hrec
          refine ⟨by simp [ihlen], fun k => ?_⟩
          cases k with
          | zero => simp [hcd, Except.toOption]
          | succ k => simpa using ihget k

/-- A batch that returns normally emitted exactly one progress event per
row (fraction `j / total`, positional label) followed by the completion
event. -/
theorem batchLoop_ok_events (env : Env) (dir : String) (total : Nat) :
    ∀ (rows : List Row) (i : Nat) (fs : FS) (x : List RowDict × FS),
      (batchLoop env dir total i rows fs).2 = Except.ok x →
      (batchLoop env dir total i rows fs).1 =
        (List.range' i rows.length).map (rowEvent total) ++ [finalEvent] := by
  intro rows
  induction rows with
  | nil =>
    intro i fs x _
    simp [batchLoop]
  | cons row rest ih =>
    intro i fs x h
    by_cases ht : total = 0
    · simp [batchLoop, progressFrac, ht] at h
    · rcases hcd : (create_document env row dir).1 with e | res
      · simp [batchLoop, progressFrac, ht, hcd] at h
      · rcases hrec :
          (batchLoop env dir total (i + 1) rest
            (applyWrites fs (create_document env row dir).2)).2 with e | p
        · simp [batchLoop, progressFrac, ht, hcd, hrec] at h
        · have hev := ih (i + 1) (applyWrites fs (create_document env row dir).2) p hrec
          simp only [batchLoop, progressFrac, ht, ite_false, hcd, hrec]
          obtain ⟨rs, fsO⟩ := p
          simp only [List.length_cons, List.range'_succ, List.map_cons, List.cons_append]
          simp [hev, rowEvent]

/-- A full batch that returns normally emitted exactly `eventTrace`. -/
theorem create_documents_ok_events (env : Env) (rows : List Row) (dir : String) (fs : FS)
    (x : List RowDict × FS) (h : (create_documents env rows dir fs).2 = Except.ok x) :
    (create_documents env rows dir fs).1 = eventTrace rows.length := by
  have := batchLoop_ok_events env dir rows.length rows 0 fs x h
  rw [create_documents, this, eventTrace, List.range_eq_range']

/-- Scaling the fractions of `eventTrace total` by `total` yields the
completed counts `0, 1, ..., total`. -/
theorem eventTrace_counts (total : Nat) :
    (eventTrace total).map (fun e => e.value * (total : ℚ)) =
      (List.range (total + 1)).map (fun j : Nat => (j : ℚ)) := by
  rcases Nat.eq_zero_or_pos total with h0 | hpos
  · subst h0
    simp [eventTrace, finalEvent, List.range_succ]
  · have hN : (total : ℚ) ≠ 0 := Nat.cast_ne_zero.mpr hpos.ne'
    rw [eventTrace, List.range_succ]
    simp only [List.map_append, List.map_map, List.map_cons, List.map_nil]
    congr 1
    · refine List.map_congr_left fun j _ => ?_
      simp [rowEvent, div_mul_cancel₀ _ hN]
    · simp [finalEvent]

/-- The completed counts of `eventTrace` are non-decreasing. -/
theorem eventTrace_counts_chain (total : Nat) :
    List.Chain' (fun a b => a ≤ b) ((eventTrace total).map (fun e => e.value * (total : ℚ))) := by
  rw [eventTrace_counts]
  refine (List.chain'_map _).mpr ?_
  refine (List.chain'_range_succ _ total).mpr fun m _ => ?_
  exact_mod_cast Nat.le_succ m

/-- The completed counts of `eventTrace` start at `0`. -/
theorem eventTrace_counts_head (total : Nat) :
    ((eventTrace total).map (fun e => e.value * (total : ℚ))).head? = some 0 := by
  rw [eventTrace_counts, List.range_succ_eq_map]
  simp

/-- The completed counts of `eventTrace` end at `total`. -/
theorem eventTrace_counts_last (total : Nat) :
    ((eventTrace total).map (fun e => e.value * (total : ℚ))).getLast? = some ((total : ℚ)) := by
  rw [eventTrace_counts, List.range_succ]
  simp

/-- When every successful output file exists on disk, the archive entry
list is exactly the success files under their base names. -/
theorem buildZipEntries_ok (fs : FS) :
    ∀ (files : List String), (∀ p ∈ files, (fsRead fs p).isSome = true) →
      buildZipEntries files fs =
        Except.ok (files.map (fun p => (basename p, (fsRead fs p).getD ""))) := by
  intro files
  induction files with
  | nil => intro _; rfl
  | cons p ps ih =>
    intro h
    obtain ⟨c, hc⟩ := Option.isSome_iff_exists.mp (h p (by simp))
    have hps := ih fun q hq => h q (by simp [hq])
    simp [buildZipEntries, hc, hps, Except.map]

/-- Claim C1 (code bug): the claim states that a failure at any step of
per-row processing is caught inside `create_document` and returned as a
Failure record (with an unknown-name sentinel when the name could not be
derived), and that no row-scoped error propagates into the batch loop.
The code violates this: when the name cell is not a string (here the
number 7), `.title()` raises, and the `except` handler itself raises
`NameError` on the unbound local `nombre`; the error escapes
`create_document` and aborts `create_documents`. -/
theorem c1_escape_eval :
    create_document envOk rowNum "o" = (Except.error (PyErr.nameError "nombre"), []) ∧
    (create_documents envOk [rowNum] "o" []).2 = Except.error (PyErr.nameError "nombre") := by
  decide

/-- Claim C2 (code bug): the claim states that a zero converter exit with
the expected output absent yields a distinct error and that such a row is
downgraded to Failure before archive assembly.  `convert_to_docx` does
raise the two distinct errors (last two conjuncts), but the per-row
conversion in `create_document` checks only the exit code: with a
converter that exits zero producing nothing, the row stays a success
record whose pdf path does not exist on disk, and archive assembly then
fails wholesale, returning `none`. -/
theorem c2_missing_output_eval :
    create_document envSilent rowBob "o" =
      (Except.ok (RowDict.success "o/Certificado - Bob.pdf" "Bob"),
       [("o/Certificado - Bob.docx", "D")]) ∧
    fsRead [("o/Certificado - Bob.docx", "D")] "o/Certificado - Bob.pdf" = none ∧
    create_zip_file [RowDict.success "o/Certificado - Bob.pdf" "Bob"] "o"
        [("o/Certificado - Bob.docx", "D")] = (none, []) ∧
    convert_to_docx ⟨0, "", none⟩ "t/template.doc" "o" [] =
      Except.error
        "Error en la conversión del formato: El archivo convertido no se creó correctamente" ∧
    convert_to_docx ⟨1, "boom", none⟩ "t/template.doc" "o" [] =
      Except.error "Error en la conversión del formato: Error al convertir el archivo: boom" := by
  decide

/-- Claim C7 (code bug): on the spec's worked example, row 1 does yield a
success record with file `Certificado - Ana Lopez.pdf`, but row 2's empty
name (loaded by pandas as NaN) does not yield a Failure record: the
per-row handler raises `NameError` on the unbound local `nombre`, the
batch aborts, and no archive is produced. -/
theorem c7_example_eval :
    (create_document envOk rowAna "out").1 =
      Except.ok (RowDict.success "out/Certificado - Ana Lopez.pdf" "Ana Lopez") ∧
    create_document envOk rowHostNan "out" = (Except.error (PyErr.nameError "nombre"), []) ∧
    (create_documents envOk [rowAna, rowHostNan] "out" []).2 =
      Except.error (PyErr.nameError "nombre") := by
  decide

/-- Claim C10 (confirmed): on an empty dataset the batch returns an empty
outcome sequence without error (in particular the guarded per-row progress
fraction is never evaluated, so no `ZeroDivisionError` arises), still
emits the final completion event, and archive assembly over the empty
outcome sequence returns the empty option. -/
theorem c10_empty_dataset (env : Env) (dir : String) (fs : FS) :
    create_documents env [] dir fs = ([finalEvent], Except.ok ([], fs)) ∧
    create_zip_file [] dir fs = (none, []) :=
  ⟨rfl, rfl⟩

/-- Claim C8 (confirmed): for every dataset missing the required
`Nombre Completo` column, the pipeline reports a single validation
failure message and stops before any row is processed: the result carries
no outcome record and no per-row work was attempted. -/
theorem c8_validation_abort (env : Env) (data : DataFrame) (dir : String) (fs : FS)
    (h : "Nombre Completo" ∉ data.columns) :
    run_generation env data dir fs =
      RunResult.validationFailure ["Faltan las siguientes columnas requeridas: Nombre Completo"] ∧
    (validate_data data).2.length = 1 := by
  have hv : validate_data data =
      (false, ["Faltan las siguientes columnas requeridas: Nombre Completo"]) := by
    simp [validate_data, h]
    rfl
  exact ⟨by simp [run_generation, hv], by rw [hv]; rfl⟩

/-- Witness for `c8_validation_abort` at a concrete dataset. -/
theorem c8_validation_abort_witness :
    ("Nombre Completo" ∉ (DataFrame.mk ["Cargo"] []).columns) ∧
    (run_generation envOk (DataFrame.mk ["Cargo"] []) "o" [] =
      RunResult.validationFailure ["Faltan las siguientes columnas requeridas: Nombre Completo"] ∧
     (validate_data (DataFrame.mk ["Cargo"] [])).2.length = 1) :=
  ⟨by decide, c8_validation_abort envOk (DataFrame.mk ["Cargo"] []) "o" [] (by decide)⟩

/-- Claim C9 (confirmed): for every row whose name cell is a string (the
missing-key default being the empty string), the substitution context is
derived from that row alone: the name is title-cased, the optional role
cell is passed through with the empty string as default, and the saved
editable output is `<dir>/Certificado - <display name>.docx` holding the
rendered bytes. -/
theorem c9_context_derivation (env : Env) (row : Row) (dir s rendered : String)
    (hn : rowGet row "Nombre Completo" (Value.str "") = Value.str s)
    (hr : env.render (renderContext row (pyTitle s)) = Except.ok rendered) :
    ((create_document env row dir).2.head? =
      some (dir ++ "/Certificado - " ++ pyTitle s ++ ".docx", rendered)) ∧
    renderContext row (pyTitle s) =
      [("nombre_completo", Value.str (pyTitle s)),
       ("cargo", rowGet row "Cargo" (Value.str ""))] ∧
    (row.find? (fun p => p.1 == "Cargo") = none →
      rowGet row "Cargo" (Value.str "") = Value.str "") := by
  refine ⟨?_, rfl, fun hf => by simp [rowGet, hf]⟩
  simp [create_document, hn, hr, apply_ite]

/-- Witness for `c9_context_derivation` on the example row. -/
theorem c9_context_derivation_witness :
    (rowGet rowAna "Nombre Completo" (Value.str "") = Value.str "ana lopez") ∧
    (envOk.render (renderContext rowAna (pyTitle "ana lopez")) =
      Except.ok "R(nombre_completo=Ana Lopez,cargo=Speaker)") ∧
    (((create_document envOk rowAna "out").2.head? =
        some ("out/Certificado - " ++ pyTitle "ana lopez" ++ ".docx",
          "R(nombre_completo=Ana Lopez,cargo=Speaker)")) ∧
     renderContext rowAna (pyTitle "ana lopez") =
       [("nombre_completo", Value.str (pyTitle "ana lopez")),
        ("cargo", rowGet rowAna "Cargo" (Value.str ""))] ∧
     (rowAna.find? (fun p => p.1 == "Cargo") = none →
       rowGet rowAna "Cargo" (Value.str "") = Value.str "")) :=
  ⟨by decide, by decide,
   c9_context_derivation envOk rowAna "out" "ana lopez"
     "R(nombre_completo=Ana Lopez,cargo=Speaker)" (by decide) (by decide)⟩

/-- Claim C3 counterexample: the claim as stated is false.  The two
batches below agree on the row at index 1, yet changing row 0 (to a row
whose name cell is the number 3) changes row 1's outcome: in the first
batch row 1 has a success record, in the second the batch aborts before
row 1 and produces no outcome at all. -/
theorem c3_cross_row_counterexample :
    ((create_documents envSilent [rowB, rowC] "o" []).2.map (fun x => x.1.get? 1)) =
      Except.ok (some (RowDict.success "o/Certificado - C.pdf" "C")) ∧
    ((create_documents envSilent [rowBad3, rowC] "o" []).2.map (fun x => x.1.get? 1)) =
      Except.error (PyErr.nameError "nombre") := by
  decide

/-- Claim C3 (amended): for batches that return their outcome list (no
row's exception escaped), the outcome record at index `i` and the file
writes performed for row `i` are a function of the template/converter
environment and row `i` alone: two batches agreeing on row `i` agree on
outcome `i`, whatever the other rows and the initial directory state. -/
theorem c3_row_independence (env : Env) (dir : String)
    (rows1 rows2 : List Row) (fs1 fs2 : FS) (i : Nat)
    (r1 r2 : List RowDict) (f1 f2 : FS)
    (h1 : (create_documents env rows1 dir fs1).2 = Except.ok (r1, f1))
    (h2 : (create_documents env rows2 dir fs2).2 = Except.ok (r2, f2))
    (hrow : rows1.get? i = rows2.get? i) :
    r1.get? i = r2.get? i ∧
    (rows1.get? i).map (fun row => create_document env row dir) =
      (rows2.get? i).map (fun row => create_document env row dir) := by
  obtain ⟨-, hg1⟩ := batchLoop_ok_spec env dir rows1.length rows1 0 fs1 r1 f1 h1
  obtain ⟨-, hg2⟩ := batchLoop_ok_spec env dir rows2.length rows2 0 fs2 r2 f2 h2
  exact ⟨by rw [hg1 i, hg2 i, hrow], by rw [hrow]⟩

/-- Witness for `c3_row_independence` on two concrete two-row batches
agreeing at index 1. -/
theorem c3_row_independence_witness :
    ((create_documents envSilent [rowB, rowC] "o" []).2 =
      Except.ok ([RowDict.success "o/Certificado - B.pdf" "B",
                  RowDict.success "o/Certificado - C.pdf" "C"],
                 [("o/Certificado - C.docx", "D"), ("o/Certificado - B.docx", "D")])) ∧
    ((create_documents envSilent [rowD, rowC] "o" []).2 =
      Except.ok ([RowDict.success "o/Certificado - D.pdf" "D",
                  RowDict.success "o/Certificado - C.pdf" "C"],
                 [("o/Certificado - C.docx", "D"), ("o/Certificado - D.docx", "D")])) ∧
    ([rowB, rowC].get? 1 = [rowD, rowC].get? 1) ∧
    ([RowDict.success "o/Certificado - B.pdf" "B",
      RowDict.success "o/Certificado - C.pdf" "C"].get? 1 =
       [RowDict.success "o/Certificado - D.pdf" "D",
        RowDict.success "o/Certificado - C.pdf" "C"].get? 1 ∧
     ([rowB, rowC].get? 1).map (fun row => create_document envSilent row "o") =
       ([rowD, rowC].get? 1).map (fun row => create_document envSilent row "o")) :=
  ⟨by decide, by decide, by decide,
   c3_row_independence envSilent "o" [rowB, rowC] [rowD, rowC] [] [] 1
     [RowDict.success "o/Certificado - B.pdf" "B", RowDict.success "o/Certificado - C.pdf" "C"]
     [RowDict.success "o/Certificado - D.pdf" "D", RowDict.success "o/Certificado - C.pdf" "C"]
     [("o/Certificado - C.docx", "D"), ("o/Certificado - B.docx", "D")]
     [("o/Certificado - C.docx", "D"), ("o/Certificado - D.docx", "D")]
     (by decide) (by decide) (by decide)⟩

/-- Claim C4 counterexample: the claim as stated is false.  The one-row
dataset below passes validation (the required column is present), yet the
batch returns no outcome list at all: the row's NaN name cell makes the
per-row handler raise, so there are zero OutcomeRecords, not one. -/
theorem c4_no_records_counterexample :
    (validate_data (DataFrame.mk ["Nombre Completo"] [rowBad4])).1 = true ∧
    (create_documents envOk [rowBad4] "w" []).2 = Except.error (PyErr.nameError "nombre") := by
  decide

/-- Claim C4 (amended): for every batch that returns its outcome list (no
row's exception escaped), the pipeline returns exactly one OutcomeRecord
per input row, in input row order: the list has the dataset's length and
its `k`-th entry is `create_document` applied to the `k`-th row. -/
theorem c4_record_count (env : Env) (rows : List Row) (dir : String) (fs : FS)
    (results : List RowDict) (fsOut : FS)
    (hok : (create_documents env rows dir fs).2 = Except.ok (results, fsOut)) :
    results.length = rows.length ∧
    ∀ k, results.get? k =
      (rows.get? k).bind (fun row => ((create_document env row dir).1).toOption) :=
  batchLoop_ok_spec env dir rows.length rows 0 fs results fsOut hok

/-- Witness for `c4_record_count` on a concrete one-row batch. -/
theorem c4_record_count_witness :
    ((create_documents envSilent [rowC] "o" []).2 =
      Except.ok ([RowDict.success "o/Certificado - C.pdf" "C"],
                 [("o/Certificado - C.docx", "D")])) ∧
    ([RowDict.success "o/Certificado - C.pdf" "C"].length = [rowC].length ∧
     ∀ k, [RowDict.success "o/Certificado - C.pdf" "C"].get? k =
       ([rowC].get? k).bind (fun row => ((create_document envSilent row "o").1).toOption)) :=
  ⟨by decide,
   c4_record_count envSilent [rowC] "o" [] [RowDict.success "o/Certificado - C.pdf" "C"]
     [("o/Certificado - C.docx", "D")] (by decide)⟩

/-- Claim C5 counterexample: the claim as stated is false.  On the one-row
batch below (name cell the number 9) the pipeline emits the initial
per-row event and then aborts: no final completion event is emitted, so
the emitted completed counts do not end at the total row count. -/
theorem c5_no_final_event_counterexample :
    ((create_documents envOk [rowBad5] "x" []).1).map (fun e => e.label) =
      ["Generando certificado 1 de 1"] ∧
    (create_documents envOk [rowBad5] "x" []).2 = Except.error (PyErr.nameError "nombre") := by
  decide

/-- Claim C5 (amended): for every batch that returns its outcome list (no
row's exception escaped), the pipeline emits one progress event per row
(fraction `i / N` with a positional label) before processing it and one
final completion event after the last row regardless of how many rows
yielded failure records; the emitted completed counts (fraction times
total) are the sequence `0, ..., N`: non-decreasing, starting at `0` and
ending exactly at the total row count. -/
theorem c5_progress_trace (env : Env) (rows : List Row) (dir : String) (fs : FS)
    (results : List RowDict) (fsOut : FS)
    (hok : (create_documents env rows dir fs).2 = Except.ok (results, fsOut)) :
    (create_documents env rows dir fs).1 = eventTrace rows.length ∧
    ((create_documents env rows dir fs).1.map (fun e => e.value * (rows.length : ℚ))) =
      (List.range (rows.length + 1)).map (fun j : Nat => (j : ℚ)) ∧
    List.Chain' (fun a b => a ≤ b)
      ((create_documents env rows dir fs).1.map (fun e => e.value * (rows.length : ℚ))) ∧
    ((create_documents env rows dir fs).1.map
      (fun e => e.value * (rows.length : ℚ))).head? = some 0 ∧
    ((create_documents env rows dir fs).1.map
      (fun e => e.value * (rows.length : ℚ))).getLast? = some ((rows.length : ℚ)) := by
  have hev := create_documents_ok_events env rows dir fs (results, fsOut) hok
  rw [hev]
  exact ⟨rfl, eventTrace_counts _, eventTrace_counts_chain _,
    eventTrace_counts_head _, eventTrace_counts_last _⟩

/-- Witness for `c5_progress_trace` on a concrete one-row batch. -/
theorem c5_progress_trace_witness :
    ((create_documents envSilent [rowB] "o" []).2 =
      Except.ok ([RowDict.success "o/Certificado - B.pdf" "B"],
                 [("o/Certificado - B.docx", "D")])) ∧
    ((create_documents envSilent [rowB] "o" []).1 = eventTrace [rowB].length ∧
     ((create_documents envSilent [rowB] "o" []).1.map
       (fun e => e.value * ([rowB].length : ℚ))) =
       (List.range ([rowB].length + 1)).map (fun j : Nat => (j : ℚ)) ∧
     List.Chain' (fun a b => a ≤ b)
       ((create_documents envSilent [rowB] "o" []).1.map
         (fun e => e.value * ([rowB].length : ℚ))) ∧
     ((create_documents envSilent [rowB] "o" []).1.map
       (fun e => e.value * ([rowB].length : ℚ))).head? = some 0 ∧
     ((create_documents envSilent [rowB] "o" []).1.map
       (fun e => e.value * ([rowB].length : ℚ))).getLast? = some (([rowB].length : ℚ))) :=
  ⟨by decide,
   c5_progress_trace envSilent [rowB] "o" [] [RowDict.success "o/Certificado - B.pdf" "B"]
     [("o/Certificado - B.docx", "D")] (by decide)⟩

/-- Claim C6 counterexample: the claim as stated is false.  The outcome
list below contains a Success outcome, yet archive assembly returns the
empty option, because the success's output file is absent from the
working directory and the resulting exception is caught and mapped to
`none`. -/
theorem c6_missing_file_counterexample :
    successFiles [RowDict.success "d/x.pdf" "X"] = ["d/x.pdf"] ∧
    create_zip_file [RowDict.success "d/x.pdf" "X"] "d" [] = (none, []) := by
  decide

/-- Claim C6 (amended): when every Success outcome's output file exists in
the working directory, archive assembly returns the empty option exactly
when the outcome sequence contains no Success outcome (a normal return,
no exception), and otherwise returns the single archive path with the
archive members exactly the Success outcomes' output files, each stored
under its base file name. -/
theorem c6_archive_assembly (results : List RowDict) (dir : String) (fs : FS)
    (hall : (successFiles results).all (fun p => (fsRead fs p).isSome) = true) :
    (successFiles results = [] → create_zip_file results dir fs = (none, [])) ∧
    (successFiles results ≠ [] →
      create_zip_file results dir fs =
        (some (dir ++ "/Certificados.zip"),
         (successFiles results).map (fun p => (basename p, (fsRead fs p).getD "")))) := by
  have hball : ∀ p ∈ successFiles results, (fsRead fs p).isSome = true := fun p hp =>
    List.all_eq_true.mp hall p hp
  constructor
  · intro he
    simp [create_zip_file, he]
  · intro hne
    have hie : (successFiles results).isEmpty = false := by
      cases hsf : successFiles results with
      | nil => exact absurd hsf hne
      | cons a l => rfl
    simp [create_zip_file, hie, buildZipEntries_ok fs _ hball]

/-- Witness for `c6_archive_assembly` on a concrete outcome list whose
success file exists on disk. -/
theorem c6_archive_assembly_witness :
    ((successFiles [RowDict.success "d/y.pdf" "Y"]).all
      (fun p => (fsRead [("d/y.pdf", "P")] p).isSome) = true) ∧
    ((successFiles [RowDict.success "d/y.pdf" "Y"] = [] →
       create_zip_file [RowDict.success "d/y.pdf" "Y"] "d" [("d/y.pdf", "P")] = (none, [])) ∧
     (successFiles [RowDict.success "d/y.pdf" "Y"] ≠ [] →
       create_zip_file [RowDict.success "d/y.pdf" "Y"] "d" [("d/y.pdf", "P")] =
         (some ("d" ++ "/Certificados.zip"),
          (successFiles [RowDict.success "d/y.pdf" "Y"]).map
            (fun p => (basename p, (fsRead [("d/y.pdf", "P")] p).getD ""))))) :=
  ⟨by decide, c6_archive_assembly [RowDict.success "d/y.pdf" "Y"] "d" [("d/y.pdf", "P")]
    (by decide)⟩

end CertGen
